import Mathlib

/-!
Shallow embedding of the Proxmox v9x salt-cloud driver
(`src/saltext/proxmox_v9x/clouds/proxmox_v9x.py`).

Wall-clock time is modelled as a natural number of time units.  Every
remote request (`_query`) advances time by `env.qd` units (`qd` is the
positive duration of one network round trip; the source bounds it above
with a per-request timeout of 10 s and below by physical latency), and
`time.sleep(interval)` advances time by `interval` units.  Time is
monotone (no clock jumps).  Responses from the cluster are modelled by
an environment `Env`: the inventory returned by
`GET cluster/resources?type=vm` is time-invariant during one call, and
`GET .../status/current` issued at time `t` reports `env.statusAt t`.

Loops of the form `while time.time() < start_time + timeout:` are
embedded as fuel-indexed structural recursions whose initial fuel is
`deadline - t`: since every iteration advances time by at least
`env.qd ≥ 1`, that fuel is sufficient, i.e. the recursion only stops
because the deadline passed, exactly as the source loop does.
-/

namespace ProxmoxV9x

/-- One entry of the `GET cluster/resources?type=vm` inventory, with the
fields the driver reads: `name`, `vmid`, `node` and `type`. -/
structure VmEntry where
  name : String
  vmid : Nat
  node : String
  vmType : String
  deriving DecidableEq, Repr

/-- One guest-agent reported address (`ip-addresses` element):
`addrType` is the `ip-address-type` field (`none` when the key is
absent), `ipAddress` the `ip-address` field. -/
structure IpAddr where
  addrType : Option String
  ipAddress : String
  deriving DecidableEq, Repr

/-- One guest-agent reported interface (`result` element). -/
structure Nic where
  hardwareAddress : String
  ipAddresses : List IpAddr
  deriving DecidableEq, Repr

/-- The payload of `GET .../agent/network-get-interfaces`: `result` is
`none` when the JSON object carries no `"result"` key. -/
structure AgentRes where
  result : Option (List Nic)
  deriving DecidableEq, Repr

/-- Python exceptions the driver raises (abstracted from
`salt.exceptions` and the interpreter's own errors). -/
inductive PyErr where
  /-- `SaltCloudNotFound` -/
  | notFound
  /-- `SaltCloudExecutionTimeout` -/
  | executionTimeout
  /-- `SaltCloudSystemExit` (wrong calling convention) -/
  | systemExit
  /-- `KeyError` (e.g. reading `__opts__["ssh_host"]` when unset) -/
  | keyError
  /-- `AttributeError` (the `time.Sleep(1)` typo) -/
  | attributeError
  /-- `IndexError` (`tmpvmid[-1]` on an empty list) -/
  | indexError
  /-- `UnboundLocalError` (reading a local before assignment) -/
  | unboundLocal
  deriving DecidableEq, Repr

/-- Remote requests the driver issues, as they appear on the wire. -/
inductive Req where
  /-- `GET cluster/resources?type=vm` -/
  | getResources
  /-- `GET cluster/nextid` -/
  | getNextId
  /-- `GET nodes/.../status/current` -/
  | getStatus
  /-- `POST nodes/.../status/{action}` -/
  | postStatus (action : String)
  /-- `POST nodes/.../clone` -/
  | postClone
  /-- `DELETE nodes/...` -/
  | deleteVm
  /-- `GET nodes/.../agent/network-get-interfaces` (plain or RAWGET) -/
  | getAgent
  deriving DecidableEq, Repr

/-- The remote cluster and timing environment observed by one driver
call (see the module comment). -/
structure Env where
  /-- inventory returned by every `GET cluster/resources?type=vm` -/
  inventory : List VmEntry
  /-- status reported by a `GET .../status/current` issued at time `t` -/
  statusAt : Nat → String
  /-- wall-clock duration of one remote request -/
  qd : Nat
  /-- a network round trip takes positive time -/
  qd_pos : 0 < qd
  /-- value returned by `GET cluster/nextid` -/
  nextid : Nat
  /-- result of the fresh-path `POST .../clone`; `none` models the
  transport failure that `_query` surfaces as `None` -/
  postCloneResult : Option Unit
  /-- whether the RAWGET agent probe issued at time `t` answers with a
  status other than 500 -/
  agentReadyAt : Nat → Bool
  /-- payload of `GET .../agent/network-get-interfaces` -/
  agentReport : AgentRes
  /-- outcome of one `cloud.wait_for_port` SSH probe -/
  portOpen : Bool

/-- First inventory entry whose `name` equals `name` — the scan in
`_get_vm_by_name` (first occurrence wins, as the source documents). -/
def find_vm (inv : List VmEntry) (name : String) : Option VmEntry :=
  inv.find? (fun vm => vm.name == name)

/-- First inventory entry whose `vmid` equals `vmid` — the scan in
`_get_vm_by_id`.  `vmid = none` models `kwargs.get("vmid")` returning
`None`, which matches no entry. -/
def find_vm_by_id (inv : List VmEntry) (vmid : Option Nat) : Option VmEntry :=
  match vmid with
  | none => none
  | some v => inv.find? (fun vm => vm.vmid == v)

/-- The retry loop of `_get_vm_by_name`: each iteration fetches the
inventory (one request, `+qd`), scans for the name, and on failure
sleeps `interval` before the next try.  `fuel` is the remaining
iteration count (`counter < max` in the source). -/
def get_vm_by_name_aux (env : Env) (name : String) (interval : Nat) :
    Nat → Nat → Option VmEntry × List Req × Nat
  | 0, t => (none, [], t)
  | fuel + 1, t =>
    let t1 := t + env.qd
    match find_vm env.inventory name with
    | some vm => (some vm, [Req.getResources], t1)
    | none =>
      let r := get_vm_by_name_aux env name interval fuel (t1 + interval)
      (r.1, Req.getResources :: r.2.1, r.2.2)

/-- `_get_vm_by_name(name, interval, max, message)`: the source body
overwrites its `max` parameter with `max = 60`, so every call performs
up to 60 inventory fetches regardless of the argument; on exhaustion it
raises `SaltCloudNotFound` (modelled by the `none` component). -/
def get_vm_by_name (env : Env) (name : String) (interval : Nat) (t : Nat) :
    Option VmEntry × List Req × Nat :=
  get_vm_by_name_aux env name interval 60 t

/-- `_get_vm_by_id(vmid)`: a single inventory fetch and scan, no retry. -/
def get_vm_by_id (env : Env) (vmid : Option Nat) (t : Nat) :
    Option VmEntry × List Req × Nat :=
  (find_vm_by_id env.inventory vmid, [Req.getResources], t + env.qd)

/-- One of the bare busy loops of `_wait_for_vm_status`
(`while time.time() < start_time + timeout: response = _query(...)`):
each iteration issues one status request and advances time by `qd`;
nothing else happens, the loop only ends when the deadline `d` passes.
Initial fuel `d - t` is sufficient because `qd ≥ 1`. -/
def busy_poll_aux (env : Env) (d : Nat) : Nat → Nat → List Req × Nat
  | 0, t => ([], t)
  | fuel + 1, t =>
    if t < d then
      let r := busy_poll_aux env d fuel (t + env.qd)
      (Req.getStatus :: r.1, r.2)
    else ([], t)

/-- Entry point of a one-request busy loop (loops 1, 2, 4, 5, 6 and 7
of `_wait_for_vm_status`). -/
def busy_poll (env : Env) (d t : Nat) : List Req × Nat :=
  busy_poll_aux env d (d - t) t

/-- A busy loop whose body issues two status requests per iteration
(loops 3, 8 and 9 of `_wait_for_vm_status`). -/
def busy_poll2_aux (env : Env) (d : Nat) : Nat → Nat → List Req × Nat
  | 0, t => ([], t)
  | fuel + 1, t =>
    if t < d then
      let r := busy_poll2_aux env d fuel (t + env.qd + env.qd)
      (Req.getStatus :: Req.getStatus :: r.1, r.2)
    else ([], t)

/-- Entry point of a two-request busy loop. -/
def busy_poll2 (env : Env) (d t : Nat) : List Req × Nat :=
  busy_poll2_aux env d (d - t) t

/-- The final loop of `_wait_for_vm_status` (source lines 748-754): each
iteration fetches the status, returns success if it equals `target`,
otherwise sleeps `interval` and retries until the deadline `d` passes. -/
def check_poll_aux (env : Env) (target : String) (d interval : Nat) :
    Nat → Nat → Bool × List Req × Nat
  | 0, t => (false, [], t)
  | fuel + 1, t =>
    if t < d then
      let r := env.statusAt t
      let t1 := t + env.qd
      if r == target then (true, [Req.getStatus], t1)
      else
        let k := check_poll_aux env target d interval fuel (t1 + interval)
        (k.1, Req.getStatus :: k.2.1, k.2.2)
    else (false, [], t)

/-- Entry point of the checking loop. -/
def check_poll (env : Env) (target : String) (d interval t : Nat) :
    Bool × List Req × Nat :=
  check_poll_aux env target d interval (d - t) t

/-- Outcome of `_wait_for_vm_status`. -/
inductive WaitRes where
  | success
  | executionTimeout
  | notFound
  deriving DecidableEq, Repr

/-- `_wait_for_vm_status(name, status, timeout, interval)`, embedded
loop for loop from source lines 691-756:

* resolve the VM by name (`_get_vm_by_name(name, interval=5, max=12,
  ...)`; the `max` argument is overwritten to 60 inside);
* loops 1 and 2: bare one-request busy loops, each with a fresh
  `start_time`;
* loop 3: bare two-request busy loop, fresh `start_time`;
* loops 4-7: bare one-request busy loops, fresh `start_time` each;
* loop 8 (source line 739): two-request busy loop with `start_time`
  set at line 739 — call its deadline `d8`;
* loop 9 (source line 744): two-request busy loop that REUSES `d8`
  because its `start_time` is not reset;
* loop 10 (source line 748): the status-checking loop, also against
  `d8`.

Loops 9 and 10 therefore start at a time that is already past their
deadline. -/
def wait_for_vm_status (env : Env) (name target : String)
    (timeout interval : Nat) (t0 : Nat) : WaitRes × List Req × Nat :=
  match get_vm_by_name env name 5 t0 with
  | (none, tr0, t) => (.notFound, tr0, t)
  | (some _, tr0, t) =>
    let p1 := busy_poll env (t + timeout) t
    let p2 := busy_poll env (p1.2 + timeout) p1.2
    let p3 := busy_poll2 env (p2.2 + timeout) p2.2
    let p4 := busy_poll env (p3.2 + timeout) p3.2
    let p5 := busy_poll env (p4.2 + timeout) p4.2
    let p6 := busy_poll env (p5.2 + timeout) p5.2
    let p7 := busy_poll env (p6.2 + timeout) p6.2
    let d8 := p7.2 + timeout
    let p8 := busy_poll2 env d8 p7.2
    let p9 := busy_poll2 env d8 p8.2
    let pc := check_poll env target d8 interval p9.2
    let trace := tr0 ++ p1.1 ++ p2.1 ++ p3.1 ++ p4.1 ++ p5.1 ++ p6.1 ++
      p7.1 ++ p8.1 ++ p9.1 ++ pc.2.1
    (if pc.1 then .success else .executionTimeout, trace, pc.2.2)

/-- The success dictionary the action functions return
(`{"success": True, "state": ..., "action": ...}`). -/
structure ActionRet where
  success : Bool
  state : String
  action : String
  deriving DecidableEq, Repr

/-- `_set_vm_status(name, status, kwargs)`: resolve the VM by name
(`_get_vm_by_name` with its default interval 1), then
`POST .../status/{status}`.  A failed resolution propagates
`SaltCloudNotFound`. -/
def set_vm_status (env : Env) (name action : String) (t0 : Nat) :
    Except PyErr Unit × List Req × Nat :=
  match get_vm_by_name env name 1 t0 with
  | (none, tr, t) => (.error .notFound, tr, t)
  | (some _, tr, t) => (.ok (), tr ++ [Req.postStatus action], t + env.qd)

/-- `stop(name, kwargs, call)` (source lines 438-468): the guard
rejects any `call` other than `"action"` with `SaltCloudSystemExit`;
otherwise it submits the stop action via `_set_vm_status` and returns
the success dictionary at once — there is no `_wait_for_vm_status`
call in its body. -/
def stop (env : Env) (name : String) (call : String) (t0 : Nat) :
    Except PyErr ActionRet × List Req × Nat :=
  if call != "action" then (.error .systemExit, [], t0)
  else
    match set_vm_status env name "stop" t0 with
    | (.error e, tr, t) => (.error e, tr, t)
    | (.ok _, tr, t) => (.ok ⟨true, "stopped", "stop"⟩, tr, t)

/-- `start(name, kwargs, call)` (source lines 402-435): guard on the
calling convention, submit the start action, then
`_wait_for_vm_status(name, "running", timeout=300, interval=1)`. -/
def start (env : Env) (name : String) (call : String) (t0 : Nat) :
    Except PyErr ActionRet × List Req × Nat :=
  if call != "action" then (.error .systemExit, [], t0)
  else
    match set_vm_status env name "start" t0 with
    | (.error e, tr, t) => (.error e, tr, t)
    | (.ok _, tr, t) =>
      match wait_for_vm_status env name "running" 300 1 t with
      | (.success, trw, t') => (.ok ⟨true, "running", "start"⟩, tr ++ trw, t')
      | (.executionTimeout, trw, t') => (.error .executionTimeout, tr ++ trw, t')
      | (.notFound, trw, t') => (.error .notFound, tr ++ trw, t')

/-- `shutdown(name, kwargs, call)` (source lines 471-502): guard,
submit the shutdown action, then
`_wait_for_vm_status(name, "stopped", timeout=300, interval=1)`. -/
def shutdown (env : Env) (name : String) (call : String) (t0 : Nat) :
    Except PyErr ActionRet × List Req × Nat :=
  if call != "action" then (.error .systemExit, [], t0)
  else
    match set_vm_status env name "shutdown" t0 with
    | (.error e, tr, t) => (.error e, tr, t)
    | (.ok _, tr, t) =>
      match wait_for_vm_status env name "stopped" 300 1 t with
      | (.success, trw, t') => (.ok ⟨true, "stopped", "shutdown"⟩, tr ++ trw, t')
      | (.executionTimeout, trw, t') => (.error .executionTimeout, tr ++ trw, t')
      | (.notFound, trw, t') => (.error .notFound, tr ++ trw, t')

/-- `destroy(name, kwargs, call)` (source lines 185-227), step by step:

1. `call == "function"` is rejected with `SaltCloudSystemExit`;
2. `stop(name, kwargs, call)` — the same `call` is forwarded, so the
   stop guard applies;
3. the "destroying instance" event is fired (no remote request);
4. `vm = _get_vm_by_name(name)`;
5. `_wait_for_vm_status(name, "stopped", timeout=20, interval=2)`;
6. only then `DELETE nodes/{node}/{type}/{vmid}`;
7. the "destroyed instance" event is fired.

Any exception raised at steps 2, 4 or 5 propagates and aborts the
remaining steps. -/
def destroy (env : Env) (name : String) (call : String) (t0 : Nat) :
    Except PyErr Unit × List Req × Nat :=
  if call == "function" then (.error .systemExit, [], t0)
  else
    match stop env name call t0 with
    | (.error e, tr, t) => (.error e, tr, t)
    | (.ok _, tr1, t) =>
      match get_vm_by_name env name 1 t with
      | (none, tr2, t) => (.error .notFound, tr1 ++ tr2, t)
      | (some _, tr2, t) =>
        match wait_for_vm_status env name "stopped" 20 2 t with
        | (.success, tr3, t) =>
          (.ok (), tr1 ++ tr2 ++ tr3 ++ [Req.deleteVm], t + env.qd)
        | (.executionTimeout, tr3, t) =>
          (.error .executionTimeout, tr1 ++ tr2 ++ tr3, t)
        | (.notFound, tr3, t) => (.error .notFound, tr1 ++ tr2 ++ tr3, t)

/-- `clone(kwargs, call)` (source lines 88-149): read `vmid` from the
kwargs (`none` models a missing key), resolve it with `_get_vm_by_id`,
`POST nodes/{node}/{type}/{vmid}/clone` — and then raise
`SaltCloudExecutionTimeout("Timeout to wait for VM cloning reached")`
unconditionally (source line 149): the function never returns
normally after a successful submission. -/
def clone (env : Env) (vmid : Option Nat) (t0 : Nat) :
    Except PyErr Unit × List Req × Nat :=
  match get_vm_by_id env vmid t0 with
  | (none, tr, t) => (.error .notFound, tr, t)
  | (some _, tr, t) => (.error .executionTimeout, tr ++ [Req.postClone], t + env.qd)

/-- The fresh-path id computation of `create` (source lines 852-857):

* `tmpvmid` collects the `vmid` of every inventory entry, in inventory
  order;
* `sorted(tmpvmid)` builds a sorted copy whose value is discarded
  (`sorted` returns a new list; the source never binds it);
* `newid = tmpvmid[-1] + 1` — the last UNSORTED element plus one.

`none` models the `IndexError` of `tmpvmid[-1]` on an empty list. -/
def fresh_newid (vmlist : List VmEntry) : Option Nat :=
  let tmpvmid := vmlist.map (·.vmid)
  let _sorted := tmpvmid.mergeSort (fun a b => a ≤ b)
  tmpvmid.getLast?.map (· + 1)

/-- Modelled from the spec ("compute `targetId` as `max(existing ids)
+ 1` over the current cluster inventory"): the id the specification
prescribes for the fresh creation path, for comparison with
`fresh_newid`. -/
def spec_target_id (vmlist : List VmEntry) : Option Nat :=
  ((vmlist.map (·.vmid)).max?).map (· + 1)

/-- The ssh-host selection loop of `create` (source lines 894-901):
for every interface whose `hardware-address` differs from the all-zero
sentinel, every address carrying `"ip-address-type": "ipv4"` OVERWRITES
`__opts__["ssh_host"]`; there is no `break`, so the value left behind
is the LAST IPv4 address in report order.  `init` is the previous value
of `__opts__["ssh_host"]` (`none` when unset). -/
def select_ssh_host (nics : List Nic) (init : Option String) : Option String :=
  nics.foldl
    (fun acc nic =>
      if nic.hardwareAddress != "00:00:00:00:00:00" then
        nic.ipAddresses.foldl
          (fun acc2 i =>
            if i.addrType == some "ipv4" then some i.ipAddress else acc2)
          acc
      else acc)
    init

/-- Modelled from the spec ("select the first IPv4 address found among
the remaining interfaces in report order"): the address the
specification prescribes, for comparison with `select_ssh_host`. -/
def spec_first_ipv4 (nics : List Nic) : Option String :=
  (nics.filter (fun nic => nic.hardwareAddress != "00:00:00:00:00:00")).findSome?
    (fun nic =>
      nic.ipAddresses.findSome?
        (fun i => if i.addrType == some "ipv4" then some i.ipAddress else none))

/-- The guest-agent report handling of `create` (source lines 886-901):
raise `SaltCloudNotFound` when the response carries no `"result"` key
(`if not "result" in res`); otherwise run the selection loop.  No error
is raised when the selection finds no IPv4 address — `__opts__` is
simply left without an `ssh_host` entry (result `.ok none`). -/
def create_ip_phase (res : AgentRes) : Except PyErr (Option String) :=
  match res.result with
  | none => .error .notFound
  | some nics => .ok (select_ssh_host nics none)

/-- The RAWGET probe loop of `_wait_for_ip` (source lines 669-686):
each iteration issues the RAWGET agent request; when it answers with a
status other than 500, a plain GET fetches the report and the function
returns it; otherwise sleep `interval` and retry until the deadline
`d` passes. -/
def rawget_loop_aux (env : Env) (d interval : Nat) :
    Nat → Nat → Option AgentRes × List Req × Nat
  | 0, t => (none, [], t)
  | fuel + 1, t =>
    if t < d then
      let ready := env.agentReadyAt t
      let t1 := t + env.qd
      if ready then (some env.agentReport, [Req.getAgent, Req.getAgent], t1 + env.qd)
      else
        let r := rawget_loop_aux env d interval fuel (t1 + interval)
        (r.1, Req.getAgent :: r.2.1, r.2.2)
    else (none, [], t)

/-- Entry point of the RAWGET probe loop. -/
def rawget_loop (env : Env) (d interval t : Nat) :
    Option AgentRes × List Req × Nat :=
  rawget_loop_aux env d interval (d - t) t

/-- `_wait_for_ip(name, timeout, interval)` (source lines 651-688):
resolve the VM by name, record `start_time`, then — BEFORE the probe
loop — run `_wait_for_vm_status(name, "running", timeout=300,
interval=5)`.  The probe loop's deadline is `start_time + timeout`
with the `start_time` recorded before that inner wait, and
`SaltCloudExecutionTimeout` is raised when the loop ends without an
agent answer. -/
def wait_for_ip (env : Env) (name : String) (timeout interval : Nat) (t0 : Nat) :
    Except PyErr AgentRes × List Req × Nat :=
  match get_vm_by_name env name 1 t0 with
  | (none, tr, t) => (.error .notFound, tr, t)
  | (some _, tr0, t) =>
    let d := t + timeout
    match wait_for_vm_status env name "running" 300 5 t with
    | (.success, trw, t) =>
      match rawget_loop env d interval t with
      | (some res, tra, t) => (.ok res, tr0 ++ trw ++ tra, t)
      | (none, tra, t) => (.error .executionTimeout, tr0 ++ trw ++ tra, t)
    | (.executionTimeout, trw, t) => (.error .executionTimeout, tr0 ++ trw, t)
    | (.notFound, trw, t) => (.error .notFound, tr0 ++ trw, t)

/-- Outcome of `create`. -/
inductive CreateRes where
  /-- normal return (bootstrap result merged with instance details);
  the payload is the resolved ssh host -/
  | ok (sshHost : String)
  /-- an exception propagated to the caller -/
  | err (e : PyErr)
  /-- `sys.exit()` — the whole process terminates -/
  | procExit
  deriving DecidableEq, Repr

/-- The tail of `create` after the creation request (source lines
867-933): `start(call="action", name=...)`, the ssh-field juggling (no
remote effect), `_wait_for_vm_status(name, "running", timeout=60,
interval=2)`, `res = _wait_for_ip(name, timeout=10, interval=2)`, the
`"result"`-key check and selection loop (`create_ip_phase`), the SSH
reachability probe (`__opts__["ssh_host"]` raises `KeyError` when the
selection set nothing; a failed `cloud.wait_for_port` attempt runs
into the `time.Sleep(1)` typo, an `AttributeError`), then bootstrap
and `show_instance` (one more inventory fetch; `SaltCloudNotFound`
when the name is absent). -/
def create_after_submit (env : Env) (newName : String) (t0 : Nat) :
    CreateRes × List Req × Nat :=
  match start env newName "action" t0 with
  | (.error e, tr, t) => (.err e, tr, t)
  | (.ok _, tr1, t) =>
    match wait_for_vm_status env newName "running" 60 2 t with
    | (.executionTimeout, tr2, t) => (.err .executionTimeout, tr1 ++ tr2, t)
    | (.notFound, tr2, t) => (.err .notFound, tr1 ++ tr2, t)
    | (.success, tr2, t) =>
      match wait_for_ip env newName 10 2 t with
      | (.error e, tr3, t) => (.err e, tr1 ++ tr2 ++ tr3, t)
      | (.ok res, tr3, t) =>
        match create_ip_phase res with
        | .error e => (.err e, tr1 ++ tr2 ++ tr3, t)
        | .ok none => (.err .keyError, tr1 ++ tr2 ++ tr3, t)
        | .ok (some host) =>
          if env.portOpen then
            match find_vm env.inventory newName with
            | some _ => (.ok host, tr1 ++ tr2 ++ tr3 ++ [Req.getResources], t + env.qd)
            | none => (.err .notFound, tr1 ++ tr2 ++ tr3 ++ [Req.getResources], t + env.qd)
          else (.err .attributeError, tr1 ++ tr2 ++ tr3, t)

/-- `create(vm_)` (source lines 814-933):

* resolve the template `vm_["image"]` by name;
* `GET cluster/nextid` while assembling `vm_["create"]`;
* fire the "starting create" event (no remote request);
* `should_clone = bool(vm_.get("clone"))`.  `cloneOpts = some vmid?`
  models a truthy clone dictionary whose `"vmid"` entry is `vmid?`
  (`none` when the key is missing);
* clone path: `clone(call="function", kwargs=clone_options)`;
* fresh path: one inventory fetch, `fresh_newid`,
  `POST nodes/.../qemu/{vmid}/clone`; a `None` response
  (`env.postCloneResult = none`) runs `sys.exit()`;
* both paths continue — when they return at all — with
  `create_after_submit`. -/
def create (env : Env) (imageName newName : String)
    (cloneOpts : Option (Option Nat)) (t0 : Nat) : CreateRes × List Req × Nat :=
  match get_vm_by_name env imageName 1 t0 with
  | (none, tr, t) => (.err .notFound, tr, t)
  | (some _, tr0, t) =>
    let t := t + env.qd
    let tr0 := tr0 ++ [Req.getNextId]
    match cloneOpts with
    | some vmid =>
      match clone env vmid t with
      | (.error e, trc, t) => (.err e, tr0 ++ trc, t)
      | (.ok _, trc, t) =>
        let r := create_after_submit env newName t
        (r.1, tr0 ++ trc ++ r.2.1, r.2.2)
    | none =>
      let t := t + env.qd
      let tr0 := tr0 ++ [Req.getResources]
      match fresh_newid env.inventory with
      | none => (.err .indexError, tr0, t)
      | some _newid =>
        let t := t + env.qd
        let tr0 := tr0 ++ [Req.postClone]
        match env.postCloneResult with
        | none => (.procExit, tr0, t)
        | some _ =>
          let r := create_after_submit env newName t
          (r.1, tr0 ++ r.2.1, r.2.2)

/-- Python strings of the IP-resolver slice are modelled as character
lists (`String.data`), so that the character-level splitting and
trimming below evaluate by kernel reduction. -/
abbrev Str := List Char

/-- Python `str.split(sep)` for a one-character separator: every
occurrence separates, empty parts are kept, the empty string yields
`[""]`. -/
def splitOnChar (sep : Char) : Str → List Str
  | [] => [[]]
  | c :: rest =>
    let r := splitOnChar sep rest
    if c == sep then [] :: r
    else
      match r with
      | [] => [[c]]
      | h :: t => (c :: h) :: t

/-- Python `str.strip()`: whitespace removed from both ends. -/
def trimChars (l : Str) : Str :=
  ((l.dropWhile Char.isWhitespace).reverse.dropWhile Char.isWhitespace).reverse

/-- Decimal value of an all-digit character list. -/
def digitsToNat (l : Str) : Nat :=
  l.foldl (fun acc c => acc * 10 + (c.toNat - 48)) 0

/-- Decimal digits of `n` for `n < 1000` (the octet range needed by
`str(ip)`). -/
def natToChars (n : Nat) : Str :=
  if n < 10 then [Nat.digitChar n]
  else if n < 100 then [Nat.digitChar (n / 10), Nat.digitChar (n % 10)]
  else [Nat.digitChar (n / 100), Nat.digitChar (n / 10 % 10), Nat.digitChar (n % 10)]

/-- Key-value parsing of one comma-separated item inside
`_stringlist_to_dictionary`: Python's `item.strip().split("=")` feeds
`dict(...)`, which raises `ValueError` unless every element is a pair
(one `=` exactly). -/
def kv_pairs : List Str → Except Unit (List (Str × Str))
  | [] => .ok []
  | item :: rest =>
    match splitOnChar '=' (trimChars item) with
    | [k, v] => (kv_pairs rest).map (fun l => (k, v) :: l)
    | _ => .error ()

/-- `_stringlist_to_dictionary(input_string)` (source lines 759-767):
split on commas, drop falsy (empty) items, strip each remaining item
and split it on `=`; `dict(...)` raises `ValueError` (modelled by
`.error ()`) when an item does not split into exactly two parts. -/
def stringlist_to_dictionary (s : Str) : Except Unit (List (Str × Str)) :=
  kv_pairs ((splitOnChar ',' s).filter (fun item => item ≠ []))

/-- Python `dict` lookup on an insertion-ordered pair list: the LAST
binding of a key wins (`dict` overwrites on duplicate keys). -/
def dict_get (d : List (Str × Str)) (k : Str) : Option Str :=
  (d.reverse.find? (fun p => p.1 == k)).map (·.2)

/-- One dotted-quad octet, with CPython's `ipaddress` checks: at most
3 characters, decimal digits only, no leading zero (ambiguous
octal/decimal is rejected), value at most 255. -/
def parse_octet (s : Str) : Option Nat :=
  if s.length = 0 || 3 < s.length then none
  else if ¬ s.all Char.isDigit then none
  else if 1 < s.length && s.headD ' ' == '0' then none
  else
    let v := digitsToNat s
    if v ≤ 255 then some v else none

/-- A dotted-quad IPv4 address as its four octets. -/
def parse_ipv4 (s : Str) : Option (Nat × Nat × Nat × Nat) :=
  match splitOnChar '.' s with
  | [a, b, c, d] => do
    let a ← parse_octet a
    let b ← parse_octet b
    let c ← parse_octet c
    let d ← parse_octet d
    pure (a, b, c, d)
  | _ => none

/-- A decimal prefix length `0..32` (CPython accepts leading zeros
here, as `"024".isdigit()` holds). -/
def parse_prefix (s : Str) : Option Nat :=
  if s.length = 0 then none
  else if ¬ s.all Char.isDigit then none
  else
    let v := digitsToNat s
    if v ≤ 32 then some v else none

/-- `ipaddress.ip_interface(s)` restricted to IPv4 (the driver's VM
configs carry IPv4 interface strings; IPv6 literals and dotted-netmask
suffixes, which CPython would also accept, are out of this model's
scope): at most one `/`, a valid dotted quad, and — when present — a
valid prefix.  The result is `.ip`, the host address without the
prefix.  `none` models the `ValueError` CPython raises. -/
def ip_interface_v4 (s : Str) : Option (Nat × Nat × Nat × Nat) :=
  match splitOnChar '/' s with
  | [addr] => parse_ipv4 addr
  | [addr, pfx] => do
    let ip ← parse_ipv4 addr
    let _ ← parse_prefix pfx
    pure ip
  | _ => none

/-- CPython's `IPv4Address.is_private`: membership in one of the
`_private_networks` of the `ipaddress` module (0.0.0.0/8, 10.0.0.0/8,
127.0.0.0/8, 169.254.0.0/16, 172.16.0.0/12, 192.0.0.0/29,
192.0.0.170/31, 192.0.2.0/24, 192.168.0.0/16, 198.18.0.0/15,
198.51.100.0/24, 203.0.113.0/24, 240.0.0.0/4,
255.255.255.255/32). -/
def is_private (ip : Nat × Nat × Nat × Nat) : Bool :=
  let (a, b, c, d) := ip
  a == 0 || a == 10 || a == 127 ||
  (a == 169 && b == 254) ||
  (a == 172 && decide (16 ≤ b) && decide (b ≤ 31)) ||
  (a == 192 && b == 0 && c == 0 && decide (d ≤ 7)) ||
  (a == 192 && b == 0 && c == 0 && (d == 170 || d == 171)) ||
  (a == 192 && b == 0 && c == 2) ||
  (a == 192 && b == 168) ||
  (a == 198 && (b == 18 || b == 19)) ||
  (a == 198 && b == 51 && c == 100) ||
  (a == 203 && b == 0 && c == 113) ||
  decide (240 ≤ a)

/-- `str(ip)` for a parsed IPv4 address. -/
def ipv4_str (ip : Nat × Nat × Nat × Nat) : Str :=
  natToChars ip.1 ++ '.' :: natToChars ip.2.1 ++ '.' :: natToChars ip.2.2.1 ++
    '.' :: natToChars ip.2.2.2

/-- The body of `_parse_ips` (source lines 783-793), iterated over the
selected config values.  The loop-carried state `var` is the Python
local `ip_with_netmask`: `none` while it is still unassigned, `some v`
once bound (`v = none` models Python `None` from `.get("ip")`).

Per entry, inside `try`:
* `_stringlist_to_dictionary` may raise `ValueError` (a malformed
  `key=value` item) BEFORE `ip_with_netmask` is assigned — in that
  case the `except ValueError:` handler's
  `log.error(..., ip_with_netmask)` reads an unassigned local and an
  `UnboundLocalError` propagates out of `_parse_ips`;
* otherwise `ip_with_netmask` is bound; `ip_interface` may raise
  `ValueError` (bad or absent address), which the handler logs using
  the now-bound local, skipping the entry;
* a parsed address is appended to the private or public list according
  to `is_private`. -/
def parse_ips_loop :
    List Str → Option (Option Str) → List Str → List Str →
    Except PyErr (List Str × List Str)
  | [], _, priv, pub => .ok (priv, pub)
  | cfg :: rest, var, priv, pub =>
    match stringlist_to_dictionary cfg with
    | .error _ =>
      match var with
      | none => .error .unboundLocal
      | some _ => parse_ips_loop rest var priv pub
    | .ok d =>
      let v := dict_get d "ip".data
      match v with
      | none => parse_ips_loop rest (some v) priv pub
      | some s =>
        match ip_interface_v4 s with
        | none => parse_ips_loop rest (some v) priv pub
        | some ip =>
          if is_private ip then
            parse_ips_loop rest (some v) (priv ++ [ipv4_str ip]) pub
          else
            parse_ips_loop rest (some v) priv (pub ++ [ipv4_str ip])

/-- `_parse_ips(vm_config, vm_type)` (source lines 770-795): pick the
values of the config keys starting with `"net"` (lxc) or `"ipconfig"`
(everything else), in config order, and run the classification loop
over them. -/
def parse_ips (vm_config : List (Str × Str)) (vm_type : String) :
    Except PyErr (List Str × List Str) :=
  let ip_configs :=
    if vm_type == "lxc" then
      (vm_config.filter (fun p => "net".data.isPrefixOf p.1)).map (·.2)
    else
      (vm_config.filter (fun p => "ipconfig".data.isPrefixOf p.1)).map (·.2)
  parse_ips_loop ip_configs none [] []

/-- One entry of the inventory as `list_nodes` reads it: `nameField`
is `none` when the JSON object has no `"name"` key, `some none` when
the key holds `null`/`None`, `some (some s)` when it holds the string
`s`; `config` is the per-VM `GET .../config` payload. -/
structure ResEntry where
  nameField : Option (Option String)
  vmid : Nat
  status : String
  node : String
  vmType : String
  config : List (Str × Str)

/-- The record `list_nodes` builds per included VM. -/
structure NodeInfo where
  id : String
  image : String
  size : String
  state : String
  private_ips : List Str
  public_ips : List Str
  deriving DecidableEq, Repr

/-- The per-entry skip condition of `list_nodes` (source line 318):
`not "name" in vm or vm["name"] is not None or vm["name"] == ""`.
With no `"name"` key the first disjunct holds; with a string value the
second holds; with value `None` all three are false (`None == ""` is
`False` in Python), so only those entries survive. -/
def list_nodes_skip (nameField : Option (Option String)) : Bool :=
  match nameField with
  | none => true
  | some (some _) => true
  | some none => false

/-- Python-dict insertion: overwrite an existing key in place,
otherwise append. -/
def dict_upsert (l : List (Option String × NodeInfo)) (k : Option String)
    (v : NodeInfo) : List (Option String × NodeInfo) :=
  if l.any (fun p => p.1 == k) then
    l.map (fun p => if p.1 == k then (k, v) else p)
  else l ++ [(k, v)]

/-- The loop of `list_nodes` (source lines 317-333) over the fetched
inventory, threading the `ret` dictionary: skipped entries contribute
nothing; an included entry (necessarily with `name = None`, see
`list_nodes_skip`) fetches its config and stores id, image, size,
state and the classified IPs.  An exception escaping `_parse_ips`
propagates. -/
def list_nodes_go (acc : List (Option String × NodeInfo)) :
    List ResEntry → Except PyErr (List (Option String × NodeInfo))
  | [] => .ok acc
  | vm :: rest =>
    if list_nodes_skip vm.nameField then list_nodes_go acc rest
    else
      match parse_ips vm.config vm.vmType with
      | .error e => .error e
      | .ok (priv, pub) =>
        let name := vm.nameField.getD none
        list_nodes_go
          (dict_upsert acc name ⟨toString vm.vmid, "", "", vm.status, priv, pub⟩)
          rest

/-- `list_nodes(call)` (source lines 298-335): fetch the inventory and
run the filtering loop.  The remote fetches themselves are elided
here; only the returned mapping matters. -/
def list_nodes (inv : List ResEntry) : Except PyErr (List (Option String × NodeInfo)) :=
  list_nodes_go [] inv

section Lemmas

variable (env : Env)

/-- Time never decreases across a one-request busy loop. -/
theorem busy_poll_aux_le (d : Nat) :
    ∀ fuel t, t ≤ (busy_poll_aux env d fuel t).2 := by
  intro fuel
  induction fuel with
  | zero => intro t; exact Nat.le_refl t
  | succ k ih =>
    intro t
    simp only [busy_poll_aux]
    split
    · exact Nat.le_trans (Nat.le_add_right t env.qd) (ih (t + env.qd))
    · exact Nat.le_refl t

/-- Time never decreases across a two-request busy loop. -/
theorem busy_poll2_aux_le (d : Nat) :
    ∀ fuel t, t ≤ (busy_poll2_aux env d fuel t).2 := by
  intro fuel
  induction fuel with
  | zero => intro t; exact Nat.le_refl t
  | succ k ih =>
    intro t
    simp only [busy_poll2_aux]
    split
    · exact Nat.le_trans (by omega) (ih (t + env.qd + env.qd))
    · exact Nat.le_refl t

/-- With fuel at least `d - t` (always the case at the entry points,
since each iteration advances time by `qd ≥ 1`), a busy loop only
stops once the deadline has passed. -/
theorem busy_poll_aux_ge (d : Nat) :
    ∀ fuel t, d - t ≤ fuel → d ≤ (busy_poll_aux env d fuel t).2 := by
  intro fuel
  induction fuel with
  | zero => intro t h; simp only [busy_poll_aux]; omega
  | succ k ih =>
    intro t h
    simp only [busy_poll_aux]
    split
    · rename_i hlt
      exact ih (t + env.qd) (by have := env.qd_pos; omega)
    · rename_i hge
      omega

/-- Two-request version of `busy_poll_aux_ge`. -/
theorem busy_poll2_aux_ge (d : Nat) :
    ∀ fuel t, d - t ≤ fuel → d ≤ (busy_poll2_aux env d fuel t).2 := by
  intro fuel
  induction fuel with
  | zero => intro t h; simp only [busy_poll2_aux]; omega
  | succ k ih =>
    intro t h
    simp only [busy_poll2_aux]
    split
    · rename_i hlt
      exact ih (t + env.qd + env.qd) (by have := env.qd_pos; omega)
    · rename_i hge
      omega

/-- A two-request busy loop runs until its deadline. -/
theorem busy_poll2_ge (d t : Nat) : d ≤ (busy_poll2 env d t).2 :=
  busy_poll2_aux_ge env d (d - t) t (Nat.le_refl _)

/-- A two-request busy loop never travels back in time. -/
theorem busy_poll2_le (d t : Nat) : t ≤ (busy_poll2 env d t).2 :=
  busy_poll2_aux_le env d (d - t) t

/-- Entered at or past its deadline, the checking loop exits at once
with `False` and an empty trace — it never fetches the status. -/
theorem check_poll_past (target : String) (d i t : Nat) (h : d ≤ t) :
    check_poll env target d i t = (false, [], t) := by
  unfold check_poll
  rw [Nat.sub_eq_zero_of_le h]
  rfl

/-- The checking loop of `_wait_for_vm_status` runs against the
deadline of loop 8, after loops 8 and 9 have already consumed it, so
it reports `False` whatever the cluster answers. -/
theorem check_after_double_busy (target : String) (interval timeout u : Nat) :
    check_poll env target (u + timeout) interval
        ((busy_poll2 env (u + timeout) ((busy_poll2 env (u + timeout) u).2)).2) =
      (false, [],
        (busy_poll2 env (u + timeout) ((busy_poll2 env (u + timeout) u).2)).2) :=
  check_poll_past env target _ interval _
    (Nat.le_trans (busy_poll2_ge env (u + timeout) u)
      (busy_poll2_le env (u + timeout) _))

/-- When the name resolves on the first inventory fetch, the
`_get_vm_by_name` loop returns it after one request. -/
theorem get_vm_by_name_found (name : String) (interval t : Nat) (vm : VmEntry)
    (hfind : find_vm env.inventory name = some vm) :
    get_vm_by_name env name interval t = (some vm, [Req.getResources], t + env.qd) := by
  show get_vm_by_name_aux env name interval (59 + 1) t = _
  simp [get_vm_by_name_aux, hfind]

/-- `_wait_for_vm_status` called on a resolvable name ALWAYS raises
`SaltCloudExecutionTimeout`, for every cluster behaviour, every target
status, every timeout and every interval: the only status-checking
loop starts past its own deadline (see `wait_for_vm_status`) and thus
reports failure without ever comparing a status. -/
theorem wait_for_vm_status_found (name target : String)
    (timeout interval t0 : Nat) (vm : VmEntry)
    (hfind : find_vm env.inventory name = some vm) :
    (wait_for_vm_status env name target timeout interval t0).1 =
      .executionTimeout := by
  have hg := get_vm_by_name_found env name 5 t0 vm hfind
  simp only [wait_for_vm_status, hg]
  rw [check_after_double_busy]
  simp

end Lemmas

section TraceLemmas

variable (env : Env)

/-- The `_get_vm_by_name` loop only ever issues inventory fetches. -/
theorem get_vm_by_name_aux_trace (name : String) (interval : Nat) :
    ∀ fuel t r, r ∈ (get_vm_by_name_aux env name interval fuel t).2.1 →
      r = Req.getResources := by
  intro fuel
  induction fuel with
  | zero => intro t r h; simp [get_vm_by_name_aux] at h
  | succ k ih =>
    intro t r h
    simp only [get_vm_by_name_aux] at h
    cases hf : find_vm env.inventory name with
    | some vm => rw [hf] at h; simp at h; exact h
    | none =>
      rw [hf] at h
      simp at h
      rcases h with h | h
      · exact h
      · exact ih (t + env.qd + interval) r h

/-- A one-request busy loop only issues status fetches. -/
theorem busy_poll_aux_trace (d : Nat) :
    ∀ fuel t r, r ∈ (busy_poll_aux env d fuel t).1 → r = Req.getStatus := by
  intro fuel
  induction fuel with
  | zero => intro t r h; simp [busy_poll_aux] at h
  | succ k ih =>
    intro t r h
    simp only [busy_poll_aux] at h
    by_cases hlt : t < d
    · simp [hlt] at h
      rcases h with h | h
      · exact h
      · exact ih (t + env.qd) r h
    · simp [hlt] at h

/-- A two-request busy loop only issues status fetches. -/
theorem busy_poll2_aux_trace (d : Nat) :
    ∀ fuel t r, r ∈ (busy_poll2_aux env d fuel t).1 → r = Req.getStatus := by
  intro fuel
  induction fuel with
  | zero => intro t r h; simp [busy_poll2_aux] at h
  | succ k ih =>
    intro t r h
    simp only [busy_poll2_aux] at h
    by_cases hlt : t < d
    · simp only [if_pos hlt, List.mem_cons] at h
      rcases h with h | h | h
      · exact h
      · exact h
      · exact ih (t + env.qd + env.qd) r h
    · simp [hlt] at h

/-- The checking loop only issues status fetches. -/
theorem check_poll_aux_trace (target : String) (d interval : Nat) :
    ∀ fuel t r, r ∈ (check_poll_aux env target d interval fuel t).2.1 →
      r = Req.getStatus := by
  intro fuel
  induction fuel with
  | zero => intro t r h; simp [check_poll_aux] at h
  | succ k ih =>
    intro t r h
    simp only [check_poll_aux] at h
    by_cases hlt : t < d
    · simp only [if_pos hlt] at h
      by_cases heq : env.statusAt t == target
      · simp [heq] at h; exact h
      · simp [heq] at h
        rcases h with h | h
        · exact h
        · exact ih (t + env.qd + interval) r h
    · simp [hlt] at h

/-- Entry-point form of `busy_poll_aux_trace`. -/
theorem busy_poll_trace (d t : Nat) :
    ∀ r ∈ (busy_poll env d t).1, r = Req.getStatus :=
  fun r h => busy_poll_aux_trace env d (d - t) t r h

/-- Entry-point form of `busy_poll2_aux_trace`. -/
theorem busy_poll2_trace (d t : Nat) :
    ∀ r ∈ (busy_poll2 env d t).1, r = Req.getStatus :=
  fun r h => busy_poll2_aux_trace env d (d - t) t r h

/-- Entry-point form of `check_poll_aux_trace`. -/
theorem check_poll_trace (target : String) (d interval t : Nat) :
    ∀ r ∈ (check_poll env target d interval t).2.1, r = Req.getStatus :=
  fun r h => check_poll_aux_trace env target d interval (d - t) t r h

/-- `_get_vm_by_name` only ever issues inventory fetches. -/
theorem get_vm_by_name_trace (name : String) (interval t : Nat) :
    ∀ r ∈ (get_vm_by_name env name interval t).2.1, r = Req.getResources :=
  fun r h => get_vm_by_name_aux_trace env name interval 60 t r h

/-- Every request `_wait_for_vm_status` issues is an inventory fetch
or a status fetch — in particular it never issues a DELETE or a POST. -/
theorem wait_for_vm_status_trace (name target : String)
    (timeout interval t0 : Nat) :
    ∀ r ∈ (wait_for_vm_status env name target timeout interval t0).2.1,
      r = Req.getResources ∨ r = Req.getStatus := by
  intro r hr
  rcases hg : get_vm_by_name env name 5 t0 with ⟨ro, tr0, t⟩
  have htr0 : ∀ x ∈ tr0, x = Req.getResources := by
    intro x hx
    apply get_vm_by_name_trace env name 5 t0 x
    rw [hg]
    exact hx
  cases ro with
  | none =>
    simp only [wait_for_vm_status, hg] at hr
    exact Or.inl (htr0 r hr)
  | some vm =>
    simp only [wait_for_vm_status, hg] at hr
    simp only [List.mem_append] at hr
    rcases hr with ((((((((((hr | hr) | hr) | hr) | hr) | hr) | hr) | hr) | hr) | hr) | hr)
    · exact Or.inl (htr0 r hr)
    · exact Or.inr (busy_poll_trace env _ _ r hr)
    · exact Or.inr (busy_poll_trace env _ _ r hr)
    · exact Or.inr (busy_poll2_trace env _ _ r hr)
    · exact Or.inr (busy_poll_trace env _ _ r hr)
    · exact Or.inr (busy_poll_trace env _ _ r hr)
    · exact Or.inr (busy_poll_trace env _ _ r hr)
    · exact Or.inr (busy_poll_trace env _ _ r hr)
    · exact Or.inr (busy_poll2_trace env _ _ r hr)
    · exact Or.inr (busy_poll2_trace env _ _ r hr)
    · exact Or.inr (check_poll_trace env _ _ _ _ r hr)

end TraceLemmas

/-- A concrete test cluster: one VM "vm1", one template "tmpl-a",
status permanently "running", unit request duration. -/
def envRunning : Env where
  inventory := [⟨"vm1", 100, "pm1", "qemu"⟩, ⟨"tmpl-a", 200, "pm1", "qemu"⟩]
  statusAt := fun _ => "running"
  qd := 1
  qd_pos := Nat.one_pos
  nextid := 201
  postCloneResult := some ()
  agentReadyAt := fun _ => true
  agentReport := ⟨none⟩
  portOpen := true

/-- The same cluster with the VM already in the "stopped" state. -/
def envStopped : Env := { envRunning with statusAt := fun _ => "stopped" }

/-- The same cluster when the fresh-path clone request's response is
lost (transport failure surfaced as `None`). -/
def envNoCloneRes : Env := { envRunning with postCloneResult := none }

section LifecycleLemmas

variable (env : Env)

/-- With the action calling convention and a resolvable name, `stop`
issues exactly one inventory fetch and the stop action, and returns
the success dictionary after two requests — no status poll. -/
theorem stop_found (name : String) (t0 : Nat) (vm : VmEntry)
    (hfind : find_vm env.inventory name = some vm) :
    stop env name "action" t0 =
      (.ok ⟨true, "stopped", "stop"⟩,
        [Req.getResources, Req.postStatus "stop"], t0 + env.qd + env.qd) := by
  simp [stop, set_vm_status, get_vm_by_name_found env name 1 t0 vm hfind]

end LifecycleLemmas

/-- C3: in `destroy(name)` (action convention, resolvable name), the
DELETE request is issued only if the stop-and-wait poll reported
success for "stopped"; and when the VM's status never reads "stopped",
`destroy` raises `SaltCloudExecutionTimeout` and the DELETE request is
never issued. -/
theorem destroy_delete_gated_on_stopped (env : Env) (name : String) (t0 : Nat)
    (vm : VmEntry) (hfind : find_vm env.inventory name = some vm) :
    (Req.deleteVm ∈ (destroy env name "action" t0).2.1 →
      ∃ t, (wait_for_vm_status env name "stopped" 20 2 t).1 = .success) ∧
    ((∀ t, env.statusAt t ≠ "stopped") →
      (destroy env name "action" t0).1 = .error .executionTimeout ∧
      Req.deleteVm ∉ (destroy env name "action" t0).2.1) := by
  have hstop := stop_found env name t0 vm hfind
  have hget := get_vm_by_name_found env name 1 (t0 + env.qd + env.qd) vm hfind
  have hw1 := wait_for_vm_status_found env name "stopped" 20 2
    (t0 + env.qd + env.qd + env.qd) vm hfind
  rcases hw : wait_for_vm_status env name "stopped" 20 2
      (t0 + env.qd + env.qd + env.qd) with ⟨w, trw, tw⟩
  rw [hw] at hw1
  simp only at hw1
  subst hw1
  have hd : destroy env name "action" t0 =
      (.error .executionTimeout,
        Req.getResources :: Req.postStatus "stop" :: Req.getResources :: trw, tw) := by
    simp [destroy, hstop, hget, hw]
  have hnodel : Req.deleteVm ∉ (destroy env name "action" t0).2.1 := by
    rw [hd]
    simp only [List.mem_cons, not_or]
    refine ⟨by decide, by decide, by decide, ?_⟩
    intro hmem
    have := wait_for_vm_status_trace env name "stopped" 20 2
      (t0 + env.qd + env.qd + env.qd) Req.deleteVm (by rw [hw]; exact hmem)
    rcases this with h | h <;> exact Req.noConfusion h
  constructor
  · intro hdel
    exact absurd hdel hnodel
  · intro _hstuck
    exact ⟨by rw [hd], hnodel⟩

/-- C3 witness: concrete stuck cluster (status constantly "running"):
`destroy` raises `SaltCloudExecutionTimeout` and never issues the
DELETE request. -/
theorem destroy_delete_gated_on_stopped_witness :
    (destroy envRunning "vm1" "action" 0).1 = .error .executionTimeout ∧
    Req.deleteVm ∉ (destroy envRunning "vm1" "action" 0).2.1 :=
  (destroy_delete_gated_on_stopped envRunning "vm1" 0
    ⟨"vm1", 100, "pm1", "qemu"⟩ rfl).2 (fun _ h => by simp [envRunning] at h)

/-- C1: evaluation at the failing input — with the VM already in the
target state (status reads "stopped" from time 0 on),
`_wait_for_vm_status(name, "stopped", timeout=20, interval=2)` still
raises `SaltCloudExecutionTimeout`, returning at time 161 (one
inventory fetch plus eight full 20-unit timeout windows of busy
polling) instead of succeeding on the first check: the stacked
duplicate loops leave the status check unreachable. -/
theorem wait_already_at_target_times_out :
    (wait_for_vm_status envStopped "vm1" "stopped" 20 2 0).1 = .executionTimeout ∧
    (wait_for_vm_status envStopped "vm1" "stopped" 20 2 0).2.2 = 161 := by
  constructor <;> decide

/-- C7: evaluation at the failing input — when the target status is
never observed, `_wait_for_vm_status(name, "stopped", timeout=20,
interval=2)` does raise `SaltCloudExecutionTimeout`, but only after
161 time units, far beyond the `timeout + interval = 22` bound the
specification allows. -/
theorem wait_timeout_exceeds_budget :
    (wait_for_vm_status envRunning "vm1" "stopped" 20 2 0).1 = .executionTimeout ∧
    20 + 2 < (wait_for_vm_status envRunning "vm1" "stopped" 20 2 0).2.2 := by
  constructor <;> decide

/-- The inventory of C2's example, ids `[100, 105, 103]`. -/
def invC2 : List VmEntry :=
  [⟨"a", 100, "pm1", "qemu"⟩, ⟨"b", 105, "pm1", "qemu"⟩, ⟨"c", 103, "pm1", "qemu"⟩]

/-- C2: evaluation at the failing input — for inventory ids
`[100, 105, 103]` the fresh creation path computes target id 104 (the
last id in inventory order plus one: the `sorted(tmpvmid)` result is
discarded), not the 106 = max + 1 the specification prescribes. -/
theorem fresh_newid_is_last_plus_one_not_max :
    fresh_newid invC2 = some 104 ∧ spec_target_id invC2 = some 106 := by
  constructor <;> decide

/-- C4: evaluation at the failing input — a `create` call on the clone
path (clone options with the template's vmid) aborts with
`SaltCloudExecutionTimeout` immediately after submitting the clone
request: the POST is on the wire, but no status request is ever issued,
so the flow never reaches the running-state convergence step. -/
theorem create_clone_path_aborts :
    (create envRunning "tmpl-a" "web-1" (some (some 200)) 0).1 = .err .executionTimeout ∧
    Req.postClone ∈ (create envRunning "tmpl-a" "web-1" (some (some 200)) 0).2.1 ∧
    Req.getStatus ∉ (create envRunning "tmpl-a" "web-1" (some (some 200)) 0).2.1 := by
  refine ⟨rfl, by decide, by decide⟩

/-- A guest-agent report with one real interface carrying two IPv4
addresses, in report order. -/
def nicsTwoV4 : List Nic :=
  [⟨"52:54:00:aa:bb:cc", [⟨some "ipv4", "10.0.0.5"⟩, ⟨some "ipv4", "10.0.0.7"⟩]⟩]

/-- A guest-agent report with one real interface carrying only an IPv6
address. -/
def nicsOnlyV6 : List Nic :=
  [⟨"52:54:00:aa:bb:cc", [⟨some "ipv6", "fe80::1"⟩]⟩]

/-- C5: evaluation at the failing inputs — the selection loop keeps
the LAST IPv4 address of the report (10.0.0.7), not the first
(10.0.0.5) that the specification, like the source's own comment,
prescribes; and a report with no IPv4 address on any real interface
produces `.ok none` (no `ssh_host` set, a later `KeyError`) instead of
the specified `SaltCloudNotFound`, which is reserved for a missing
`"result"` key. -/
theorem select_ssh_host_last_not_first :
    create_ip_phase ⟨some nicsTwoV4⟩ = .ok (some "10.0.0.7") ∧
    spec_first_ipv4 nicsTwoV4 = some "10.0.0.5" ∧
    create_ip_phase ⟨some nicsOnlyV6⟩ = .ok none :=
  ⟨rfl, rfl, rfl⟩

/-- C6 counterexample: on a cluster whose VM status constantly reads
"running", `stop` returns the success dictionary claiming state
"stopped" without issuing one single status request — it does not wait
via the status poller (which would have raised
`SaltCloudExecutionTimeout` here). -/
theorem stop_counterexample_no_polling :
    (stop envRunning "vm1" "action" 0).1 = .ok ⟨true, "stopped", "stop"⟩ ∧
    Req.getStatus ∉ (stop envRunning "vm1" "action" 0).2.1 :=
  ⟨rfl, by decide⟩

/-- C6 (amended): `stop(name)` with the action calling convention
resolves the VM, submits the stop action, and returns the success
dictionary immediately, without polling the VM status. -/
theorem stop_submits_and_returns_immediately (env : Env) (name : String)
    (t0 : Nat) (vm : VmEntry) (hfind : find_vm env.inventory name = some vm) :
    (stop env name "action" t0).1 = .ok ⟨true, "stopped", "stop"⟩ ∧
    Req.postStatus "stop" ∈ (stop env name "action" t0).2.1 ∧
    Req.getStatus ∉ (stop env name "action" t0).2.1 := by
  have h := stop_found env name t0 vm hfind
  refine ⟨by rw [h], by rw [h]; simp, by rw [h]; simp⟩

/-- C6 witness: the amended behaviour at a concrete input (VM already
stopped). -/
theorem stop_submits_and_returns_immediately_witness :
    (stop envStopped "vm1" "action" 0).1 = .ok ⟨true, "stopped", "stop"⟩ ∧
    Req.postStatus "stop" ∈ (stop envStopped "vm1" "action" 0).2.1 ∧
    Req.getStatus ∉ (stop envStopped "vm1" "action" 0).2.1 :=
  stop_submits_and_returns_immediately envStopped "vm1" 0
    ⟨"vm1", 100, "pm1", "qemu"⟩ rfl

/-- C8: evaluation at the spec's inputs — `_parse_ips` classifies
`ip=192.168.1.5/24` as private and `ip=8.8.8.8/32` as public, but a
config whose first entry is the malformed string `not-an-ip` does NOT
merely get skipped: the `dict(...)` `ValueError` is caught, yet the
handler's log line reads the still-unassigned local
`ip_with_netmask`, so an `UnboundLocalError` propagates to the
caller. -/
theorem parse_ips_classification_and_unbound_local :
    parse_ips [("ipconfig0".data, "ip=192.168.1.5/24".data)] "qemu" =
      .ok (["192.168.1.5".data], []) ∧
    parse_ips [("ipconfig0".data, "ip=8.8.8.8/32".data)] "qemu" =
      .ok ([], ["8.8.8.8".data]) ∧
    parse_ips [("ipconfig0".data, "not-an-ip".data)] "qemu" =
      .error .unboundLocal :=
  ⟨rfl, rfl, rfl⟩

/-- Whether an inventory entry carries a `"name"` key holding an
actual (non-`None`) string. -/
def has_name (vm : ResEntry) : Bool :=
  match vm.nameField with
  | some (some _) => true
  | _ => false

/-- Generalisation of C9 over the threaded accumulator: when every
entry carries a non-`None` name, the `list_nodes` loop skips them
all. -/
theorem list_nodes_go_all_named (acc : List (Option String × NodeInfo)) :
    ∀ inv : List ResEntry, inv.all has_name → list_nodes_go acc inv = .ok acc := by
  intro inv
  induction inv with
  | nil => intro _; rfl
  | cons vm rest ih =>
    intro h
    simp only [List.all_cons, Bool.and_eq_true] at h
    have hskip : list_nodes_skip vm.nameField = true := by
      rcases hv : vm.nameField with _ | (_ | v)
      · rfl
      · rw [has_name, hv] at h
        simp at h
      · rfl
    simp only [list_nodes_go, hskip, if_pos]
    exact ih h.2

/-- C9: for every inventory in which each entry carries a non-`None`
name, `list_nodes` returns the empty mapping: its filter condition
(`vm["name"] is not None` as a skip disjunct) excludes every such
entry. -/
theorem list_nodes_all_named_empty (inv : List ResEntry)
    (h : inv.all has_name) : list_nodes inv = .ok [] :=
  list_nodes_go_all_named [] inv h

/-- C9 witness: a two-VM inventory, both entries properly named,
yields the empty mapping. -/
theorem list_nodes_all_named_empty_witness :
    list_nodes [⟨some (some "web-1"), 100, "running", "pm1", "qemu", []⟩,
      ⟨some (some "db-1"), 101, "stopped", "pm1", "qemu", []⟩] = .ok [] :=
  list_nodes_all_named_empty _ (by decide)

/-- C10: on the fresh creation path, when the clone-style creation
request's response is absent (`_query` returned `None` after a
transport failure), `create` ends the whole process via `sys.exit()`
instead of raising a typed error. -/
theorem create_fresh_none_response_exits (env : Env)
    (imageName newName : String) (t0 : Nat) (vm : VmEntry)
    (hfind : find_vm env.inventory imageName = some vm)
    (hres : env.postCloneResult = none) :
    (create env imageName newName none t0).1 = .procExit := by
  have hg := get_vm_by_name_found env imageName 1 t0 vm hfind
  rcases hinv : env.inventory with _ | ⟨e, es⟩
  · rw [find_vm, hinv] at hfind
    simp at hfind
  · have hv : ∃ v, ((e :: es).map (·.vmid)).getLast? = some v := by
      have hne : ((e :: es).map (·.vmid)) ≠ [] := by simp
      exact Option.isSome_iff_exists.mp (List.getLast?_isSome.mpr hne)
    obtain ⟨v, hv⟩ := hv
    have hfn : fresh_newid env.inventory = some (v + 1) := by
      rw [fresh_newid, hinv]
      simp only [hv, Option.map_some]
      rfl
    simp [create, hg, hfn, hres]

/-- C10 witness: concrete cluster with a lost clone response — the
fresh path of `create` exits the process. -/
theorem create_fresh_none_response_exits_witness :
    (create envNoCloneRes "vm1" "web-1" none 0).1 = .procExit :=
  create_fresh_none_response_exits envNoCloneRes "vm1" "web-1" 0
    ⟨"vm1", 100, "pm1", "qemu"⟩ rfl rfl

end ProxmoxV9x
